import Mathlib

/-!
Verification development for the fastai documentation repository.

The repository consists of three Jupyter documentation notebooks and one
generated HTML page.  The documentation-generation tooling
(`create_module_page`, `update_module_page`, the `sgen_notebooks` command,
`update_notebooks`) and the AWD-LSTM text-model layer (`dropout_mask`,
`RNNDropout`, `EmbeddingDropout`, `get_language_model`,
`get_rnn_classifier`) live in the external `fastai` package and are only
documented here, so those operations are modelled from the specification
text carried by the notebooks.  The notebooks themselves (their cell
structure and code-cell sources) are embedded directly as data.
-/

namespace FastaiDocs

/-! ### Documentation-generation model -/

/-- Modelled from the spec: the only failure the documentation-generation
interface defines is "the output notebook already exists and `force` is
`False`" (`create_module_page` doc cell in
`docs_src/gen_doc.gen_notebooks.ipynb`).  The error type therefore has a
single constructor. -/
inductive DocGenError where
  | notebookAlreadyExists (path : String)
deriving DecidableEq

/-- Modelled from the spec: the documentation notebook for module `m`
generated in folder `dest` lives at `dest/m.ipynb`. -/
def nbPathFor (dest m : String) : String := dest ++ "/" ++ m ++ ".ipynb"

/-- Modelled from the spec: `create_module_page(mod, dest_path, force)`
creates the documentation notebook for module `mod` in `dest_path`; if
`force` is `False` it raises an exception when the notebook is already
present (`create_module_page` doc cell in
`docs_src/gen_doc.gen_notebooks.ipynb`).  The file system is modelled as
the list of existing paths. -/
def create_module_page (m dest : String) (force : Bool) (fs : List String) :
    Except DocGenError (List String) :=
  if fs.contains (nbPathFor dest m) && !force then
    Except.error (DocGenError.notebookAlreadyExists (nbPathFor dest m))
  else
    Except.ok (nbPathFor dest m :: fs)

/-- A documentation-notebook cell: either user-added markdown or the
templated documentation cell of one exported symbol. -/
inductive Cell where
  | markdown (text : String)
  | symbolDoc (sym : String)
deriving DecidableEq

/-- A documentation notebook is its ordered list of cells. -/
structure Notebook where
  cells : List Cell
deriving DecidableEq

/-- The symbols already documented by a notebook, in cell order. -/
def documentedSyms (nb : Notebook) : List String :=
  nb.cells.filterMap fun c =>
    match c with
    | Cell.symbolDoc s => some s
    | Cell.markdown _ => none

/-- Modelled from the spec: the skeleton generator emits one templated
documentation cell per exported symbol. -/
def templateCell (s : String) : Cell := Cell.symbolDoc s

/-- Modelled from the spec: `update_module_page(mod, dest_path)` conserves
all the cells added by a user and inserts at the end a templated cell for
each symbol of the module that was not documented before
(`update_module_page` doc cell and the surrounding markdown in
`docs_src/gen_doc.gen_notebooks.ipynb`). -/
def update_module_page (syms : List String) (nb : Notebook) : Notebook :=
  ⟨nb.cells ++ (syms.filter (fun s => !(documentedSyms nb).contains s)).map templateCell⟩

/-- A Python module as the documentation tooling sees it: its name and its
symbol table (list of exported symbols). -/
structure Module where
  name : String
  symbols : List String

/-- Modelled from the spec: the initial notebook skeleton for a module is
a templated cell for each exported symbol. -/
def skeletonNb (m : Module) : Notebook := ⟨m.symbols.map templateCell⟩

/-- Observable effects of a run of the documentation tooling.  A
`spawnThread` effect is expressible so that its absence is a property of
the model rather than of the event vocabulary. -/
inductive Event where
  | readSymbolTable (modName : String)
  | writeNotebook (path : String) (nb : Notebook)
  | updateNotebook (path : String) (nb : Notebook)
  | writeHtml (path : String) (html : String)
  | spawnThread
deriving DecidableEq

/-- Parsed command line of `python -m sgen_notebooks package path_to_result
[--update]`. -/
structure Args where
  package : String
  dest : String
  update : Bool
deriving DecidableEq

/-- Modelled from the spec: the command line of `sgen_notebooks` is the
package, the result path, and the optional `--update` flag
(usage cell in `docs_src/gen_doc.gen_notebooks.ipynb`). -/
def parseArgs : List String → Option Args
  | [p, d] => some ⟨p, d, false⟩
  | [p, d, f] => if f == "--update" then some ⟨p, d, true⟩ else none
  | _ => none

/-- Modelled from the spec: processing one module reads its symbol table,
then either writes a fresh skeleton notebook, or (with `--update`) updates
the existing notebook through `update_module_page`, skipping modules whose
notebook does not exist. -/
def processModule (dest : String) (upd : Bool) (fs : String → Option Notebook)
    (m : Module) : List Event :=
  Event.readSymbolTable m.name ::
    (if upd then
      match fs (nbPathFor dest m.name) with
      | some nb =>
          [Event.updateNotebook (nbPathFor dest m.name) (update_module_page m.symbols nb)]
      | none => []
    else
      [Event.writeNotebook (nbPathFor dest m.name) (skeletonNb m)])

/-- Modelled from the spec: a run of `sgen_notebooks` processes the modules
of the package one after the other. -/
def runSgen (a : Args) (mods : List Module) (fs : String → Option Notebook) :
    List Event :=
  match mods with
  | [] => []
  | m :: ms => processModule a.dest a.update fs m ++ runSgen a ms fs

/-- The source argument of `update_notebooks`: a single notebook file or a
directory of notebooks. -/
inductive SourcePath where
  | file (nb : String)
  | dir (nbs : List String)

/-- The notebooks denoted by a source path. -/
def sourceNbs : SourcePath → List String
  | SourcePath.file nb => [nb]
  | SourcePath.dir nbs => nbs

/-- Modelled from the spec: the rendered HTML page of notebook `n` is
placed at `hp/n.html` under the HTML output path `hp`. -/
def htmlPathFor (hp n : String) : String := hp ++ "/" ++ n ++ ".html"

/-- Modelled from the spec: `update_notebooks(source_path, ...)` with
`update_html=True` converts each source notebook (`source_path` can be a
directory or a file) into a rendered HTML page at `html_path`
(`update_notebooks` doc cell and the conversion section of
`docs_src/gen_doc.gen_notebooks.ipynb`).  `conv` abstracts the
nbconvert-based notebook-to-HTML renderer. -/
def update_notebooks (conv : String → String) (sp : SourcePath)
    (update_html : Bool) (html_path : String) : List Event :=
  if update_html then
    (sourceNbs sp).map (fun n => Event.writeHtml (htmlPathFor html_path n) (conv n))
  else []

/-! ### AWD-LSTM output-structure model -/

/-- An abstract tensor; only the output structure of the models matters
for the documented properties. -/
abbrev Tensor := List ℚ

/-- Modelled from the spec: the AWD-LSTM encoder (`RNNCore`) as the list
of its stacked RNN layers together with the hidden dropout applied to the
layer outputs. -/
structure RNNCoreModel where
  layers : List (Tensor → Tensor)
  hiddenDropout : Tensor → Tensor

/-- The per-layer outputs of stacked layers: each layer is fed the output
of the previous one. -/
def layerOutputs (ls : List (Tensor → Tensor)) (x : Tensor) : List Tensor :=
  match ls with
  | [] => []
  | f :: fs => f x :: layerOutputs fs (f x)

/-- Modelled from the spec: `RNNCore.forward` returns the pair of the raw
per-layer outputs and the same outputs after dropout
(`text.models` notebook, `RNNCore` and `get_language_model` cells). -/
def rnnCoreForward (core : RNNCoreModel) (x : Tensor) : List Tensor × List Tensor :=
  (layerOutputs core.layers x, (layerOutputs core.layers x).map core.hiddenDropout)

/-- One element of the list returned by the language model or the
classifier: the actual output tensor, or a list of intermediate hidden
states. -/
inductive LMOutputPart where
  | result (t : Tensor)
  | hiddenStates (ts : List Tensor)

/-- The last element of a list of tensors, or `d` when the list is empty. -/
def lastOr (d : Tensor) : List Tensor → Tensor
  | [] => d
  | [t] => t
  | _ :: t :: ts => lastOr d (t :: ts)

/-- Modelled from the spec: the decoder sitting on the encoder returns a
list of three things: the decoded output computed from the last
dropped-out hidden state, then the raw hidden states, then the
dropped-out hidden states (`text.models` notebook, `get_language_model`
cell). -/
def linearDecoderForward (decoder : Tensor → Tensor) (x : Tensor)
    (enc : List Tensor × List Tensor) : List LMOutputPart :=
  [LMOutputPart.result (decoder (lastOr x enc.2)),
   LMOutputPart.hiddenStates enc.1,
   LMOutputPart.hiddenStates enc.2]

/-- Modelled from the spec: `get_language_model` stacks a `LinearDecoder`
on an `RNNCore` encoder (`text.models` notebook). -/
def get_language_model (core : RNNCoreModel) (decoder : Tensor → Tensor)
    (x : Tensor) : List LMOutputPart :=
  linearDecoderForward decoder x (rnnCoreForward core x)

/-- Modelled from the spec: the pooling classifier head consumes all the
dropped-out outputs (last output, max pooling, average pooling, then the
linear blocks) and returns the same three-element list shape
(`text.models` notebook, `get_rnn_classifier` cell). -/
def poolingClassifierForward (head : List Tensor → Tensor)
    (enc : List Tensor × List Tensor) : List LMOutputPart :=
  [LMOutputPart.result (head enc.2),
   LMOutputPart.hiddenStates enc.1,
   LMOutputPart.hiddenStates enc.2]

/-- Modelled from the spec: `get_rnn_classifier` stacks a
`PoolingLinearClassifier` on the AWD-LSTM encoder (`text.models`
notebook). -/
def get_rnn_classifier (core : RNNCoreModel) (head : List Tensor → Tensor)
    (x : Tensor) : List LMOutputPart :=
  poolingClassifierForward head (rnnCoreForward core x)

/-! ### Dropout numerics model -/

/-- Modelled from the spec: `dropout_mask(x, sz, p)` draws a Bernoulli
keep-decision per coordinate of size `sz` and divides by `1 - p`, so a
kept coordinate carries `1/(1-p)` and a dropped one carries `0`
(`dropout_mask` cell of the `text.models` notebook, whose example shows
entries `0` and `1.4286` for `p = 0.3`).  The random Bernoulli draw is
abstracted as the `keep` function; coordinates of the mask are indexed by
`ℕ`. -/
def dropout_mask (keep : ℕ → Bool) (p : ℚ) : ℕ → ℚ :=
  fun j => (if keep j then 1 else 0) / (1 - p)

/-- Modelled from the spec: `RNNDropout` in training mode draws one mask
for the trailing dimensions and expands it along the first (sequence)
dimension, multiplying the input by it; in evaluation mode the input is
returned unchanged (`RNNDropout` cells of the `text.models` notebook).
`x i j` is the input entry at sequence step `i` and trailing coordinate
`j`. -/
def rnnDropout (keep : ℕ → Bool) (p : ℚ) (training : Bool)
    (x : ℕ → ℕ → ℚ) : ℕ → ℕ → ℚ :=
  fun i j => if training then x i j * dropout_mask keep p j else x i j

/-- Modelled from the spec: `EmbeddingDropout` in training mode draws one
mask value per row of the embedding matrix and multiplies the whole row
by it, so each row is zeroed with probability `embed_p` and surviving
rows are rescaled by `1/(1-embed_p)` (`EmbeddingDropout` cells of the
`text.models` notebook).  `w r c` is the embedding-matrix entry at row
`r`, column `c`. -/
def embeddingDropout (keepRow : ℕ → Bool) (p : ℚ) (training : Bool)
    (w : ℕ → ℕ → ℚ) : ℕ → ℕ → ℚ :=
  fun r c => if training then dropout_mask keepRow p r * w r c else w r c

/-! ### The repository files, embedded as data -/

/-- Boolean list-prefix test on characters. -/
def listIsPre : List Char → List Char → Bool
  | [], _ => true
  | _ :: _, [] => false
  | a :: as, b :: bs => a == b && listIsPre as bs

/-- `strHasPre p s` holds when the string `s` starts with `p`. -/
def strHasPre (p s : String) : Bool := listIsPre p.data s.data

/-- A line of Python source that opens a function or class definition. -/
def isPythonDefLine (l : String) : Bool :=
  strHasPre "def " l || strHasPre "async def " l || strHasPre "class " l

/-- A code cell (given as its list of source lines) that defines a Python
function or class. -/
def cellHasPythonDef (lines : List String) : Bool := lines.any isPythonDefLine

/-- A file of this repository: a Jupyter notebook with its `nbformat`
number and the sources of its code cells, or a generated HTML page with
its front-matter title. -/
inductive RepoFile where
  | notebook (name : String) (nbformat : ℕ) (codeCells : List (List String))
  | htmlPage (name : String) (title : String)

/-- The code-cell sources of `docs_src/applications.ipynb`. -/
def applicationsCodeCells : List (List String) := [
  ["from fastai.gen_doc.nbdoc import *  "],
  [""]
]

/-- The code-cell sources of `docs_src/gen_doc.gen_notebooks.ipynb`. -/
def genNotebooksCodeCells : List (List String) := [
  ["from fastai import gen_doc", "from fastai.gen_doc import nbdoc", "from fastai.gen_doc.nbdoc import *", "from fastai.gen_doc.gen_notebooks import *"],
  ["show_doc(create_module_page, arg_comments=\x7b", "    \x27mod\x27: \x27the module\x27,", "    \x27dest_path\x27: \x27the folder in which to generate the notebook\x27,", "    \x27force\x27: \x27if False, will raise an exception if the notebook is already present\x27\x7d)"],
  ["show_doc(link_nb)"],
  ["show_doc(update_module_page, arg_comments=\x7b", "    \x27mod\x27: \x27the module\x27,", "    \x27dest_path\x27: \x27the folder in which to generate the notebook\x27\x7d)"],
  ["show_doc(generate_all, arg_comments=\x7b", "    \x27pkg_name\x27: \x27name of the package to document\x27,", "    \x27dest_path\x27: \x27the folder in which to generate the notebooks\x27,", "    \x27exclude\x27: \x27names of subdirectories to ignore\x27\x7d)"],
  ["show_doc(update_all, arg_comments=\x7b", "    \x27pkg_name\x27: \x27name of the package to document\x27,", "    \x27dest_path\x27: \x27the folder in which to generate the notebooks\x27,", "    \x27exclude\x27: \x27names of subdirectories to ignore\x27,", "    \x27create_missing\x27: \x27create docs if they don\\\x27t exist\x27\x7d)"],
  ["show_doc(update_notebooks)"]
]

/-- The code-cell sources of the `text.models` documentation notebook
(`src/unnamed/part_000`). -/
def textModelsCodeCells : List (List String) := [
  ["from fastai.gen_doc.nbdoc import *", "from fastai.text.models import * ", "from fastai import *"],
  ["show_doc(get_language_model, doc_string=False)"],
  ["show_doc(get_rnn_classifier, doc_string=False)"],
  ["show_doc(EmbeddingDropout, doc_string=False, title_level=3)"],
  ["enc = nn.Embedding(100, 7, padding_idx=1)", "enc_dp = EmbeddingDropout(enc, 0.5)", "tst_input = torch.randint(0,100,(8,))", "enc_dp(tst_input)"],
  ["show_doc(RNNDropout, doc_string=False, title_level=3)"],
  ["dp = RNNDropout(0.3)", "tst_input = torch.randn(3,3,7)", "tst_input, dp(tst_input)"],
  ["show_doc(WeightDropout, doc_string=False, title_level=3)"],
  ["module = nn.LSTM(5, 2)", "dp_module = WeightDropout(module, 0.4)", "getattr(dp_module.module, \x27weight_hh_l0\x27)"],
  ["tst_input = torch.randn(4,20,5)", "h = (torch.zeros(1,20,2), torch.zeros(1,20,2))", "x,h = dp_module(tst_input,h)", "getattr(dp_module.module, \x27weight_hh_l0\x27)"],
  ["show_doc(SequentialRNN, doc_string=False, title_level=3)"],
  ["show_doc(SequentialRNN.reset)"],
  ["show_doc(dropout_mask, doc_string=False)"],
  ["tst_input = torch.randn(3,3,7)", "dropout_mask(tst_input, (3,7), 0.3)"],
  ["show_doc(RNNCore, doc_string=False, title_level=3)"],
  ["show_doc(RNNCore.reset)"],
  ["show_doc(LinearDecoder, doc_string=False, title_level=3)"],
  ["show_doc(MultiBatchRNNCore, doc_string=False, title_level=3)"],
  ["show_doc(MultiBatchRNNCore.concat)"],
  ["show_doc(PoolingLinearClassifier, doc_string=False, title_level=3)"],
  ["show_doc(PoolingLinearClassifier.pool, doc_string=False)"],
  ["show_doc(WeightDropout.forward)"],
  ["show_doc(RNNCore.forward)"],
  ["show_doc(EmbeddingDropout.forward)"],
  ["show_doc(RNNDropout.forward)"]
]

/-- The four files of the repository. -/
def repoFiles : List RepoFile := [
  RepoFile.notebook "docs_src/applications.ipynb" 4 applicationsCodeCells,
  RepoFile.notebook "docs_src/gen_doc.gen_notebooks.ipynb" 4 genNotebooksCodeCells,
  RepoFile.notebook "unnamed/part_000 (text.models)" 4 textModelsCodeCells,
  RepoFile.htmlPage "unnamed/part_001 (callback.fp16)" "callback.fp16"
]

/-- A repository file is documentation only: a notebook in nbformat 4 none
of whose code cells defines a Python function or class, or a generated
HTML page. -/
def fileIsDocOnly : RepoFile → Bool
  | RepoFile.notebook _ fmt cells => fmt == 4 && cells.all (fun c => !(cellHasPythonDef c))
  | RepoFile.htmlPage _ _ => true

/-- The root under which all source links of the `text.models`
documentation notebook point. -/
def fastaiSourceRoot : String := "https://github.com/fastai/fastai/blob/master/fastai/"

/-- Each symbol documented by the `text.models` notebook together with the
source hyperlink its documentation cell carries, as embedded in the
notebook outputs of `src/unnamed/part_000`. -/
def textModelsSymbolSources : List (String × String) := [
  ("get_language_model", "https://github.com/fastai/fastai/blob/master/fastai/text/models.py#L205"),
  ("get_rnn_classifier", "https://github.com/fastai/fastai/blob/master/fastai/text/models.py#L214"),
  ("EmbeddingDropout", "https://github.com/fastai/fastai/blob/master/fastai/text/models.py#L50"),
  ("RNNDropout", "https://github.com/fastai/fastai/blob/master/fastai/text/models.py#L11"),
  ("WeightDropout", "https://github.com/fastai/fastai/blob/master/fastai/text/models.py#L23"),
  ("SequentialRNN", "https://github.com/fastai/fastai/blob/master/fastai/text/models.py#L151"),
  ("SequentialRNN.reset", "https://github.com/fastai/fastai/blob/master/fastai/text/models.py#L153"),
  ("dropout_mask", "https://github.com/fastai/fastai/blob/master/fastai/text/models.py#L7"),
  ("RNNCore", "https://github.com/fastai/fastai/blob/master/fastai/text/models.py#L73"),
  ("RNNCore.reset", "https://github.com/fastai/fastai/blob/master/fastai/text/models.py#L125"),
  ("LinearDecoder", "https://github.com/fastai/fastai/blob/master/fastai/text/models.py#L132"),
  ("MultiBatchRNNCore", "https://github.com/fastai/fastai/blob/master/fastai/text/models.py#L157"),
  ("MultiBatchRNNCore.concat", "https://github.com/fastai/fastai/blob/master/fastai/text/models.py#L164"),
  ("PoolingLinearClassifier", "https://github.com/fastai/fastai/blob/master/fastai/text/models.py#L179"),
  ("PoolingLinearClassifier.pool", "https://github.com/fastai/fastai/blob/master/fastai/text/models.py#L190"),
  ("WeightDropout.forward", "https://github.com/fastai/fastai/blob/master/fastai/text/models.py#L40"),
  ("RNNCore.forward", "https://github.com/fastai/fastai/blob/master/fastai/text/models.py#L104"),
  ("EmbeddingDropout.forward", "https://github.com/fastai/fastai/blob/master/fastai/text/models.py#L59"),
  ("RNNDropout.forward", "https://github.com/fastai/fastai/blob/master/fastai/text/models.py#L18")
]

/-- The AWD-LSTM symbols named by the documentation as implemented in the
external fastai package. -/
def awdLstmSymbols : List String :=
  ["get_language_model", "get_rnn_classifier", "RNNDropout", "WeightDropout",
   "EmbeddingDropout", "RNNCore"]

/-! ### Theorems -/

/-- Helper: the documented symbols of two concatenated cell lists. -/
lemma documentedSyms_append (cs ds : List Cell) :
    documentedSyms ⟨cs ++ ds⟩ = documentedSyms ⟨cs⟩ ++ documentedSyms ⟨ds⟩ := by
  simp [documentedSyms, List.filterMap_append]

/-- Helper: a list of templated cells documents exactly its symbols. -/
lemma documentedSyms_templateCells (l : List String) :
    documentedSyms ⟨l.map templateCell⟩ = l := by
  induction l with
  | nil => rfl
  | cons a as ih => simpa [documentedSyms, templateCell] using ih

/-- Helper: processing one module never emits a thread-spawn effect. -/
lemma spawnThread_not_mem_processModule (dest : String) (upd : Bool)
    (fs : String → Option Notebook) (m : Module) :
    Event.spawnThread ∉ processModule dest upd fs m := by
  unfold processModule
  cases upd
  · simp
  · cases fs (nbPathFor dest m.name) <;> simp

/-- C1: `create_module_page mod dest_path force` fails if and only if the
output notebook already exists in `dest_path` and `force` is false;
otherwise it creates the notebook without raising; and the only failure
the interface defines is the notebook-already-exists guard. -/
theorem create_module_page_guard (m dest : String) (force : Bool) (fs : List String) :
    ((create_module_page m dest force fs).isOk = false ↔
      fs.contains (nbPathFor dest m) = true ∧ force = false) ∧
    (create_module_page m dest force fs
        = Except.error (DocGenError.notebookAlreadyExists (nbPathFor dest m)) ∨
      create_module_page m dest force fs = Except.ok (nbPathFor dest m :: fs)) ∧
    (∀ e : DocGenError, ∃ q, e = DocGenError.notebookAlreadyExists q) := by
  refine ⟨?_, ?_, ?_⟩
  · by_cases hm : nbPathFor dest m ∈ fs <;> cases force <;>
      simp [create_module_page, Except.isOk, Except.toBool, hm]
  · by_cases hm : nbPathFor dest m ∈ fs <;> cases force <;>
      simp [create_module_page, hm]
  · intro e
    cases e with
    | notebookAlreadyExists q => exact ⟨q, rfl⟩

/-- C2: the skeleton generator is invoked as
`python -m sgen_notebooks package path_to_result [--update]`; a run reads
the symbol table of every module of the package and writes one notebook
skeleton per module into the result path, and with `--update` it updates
the existing notebooks through `update_module_page` instead of writing
fresh skeletons. -/
theorem sgen_notebooks_cli (p d : String) (mods : List Module)
    (fs : String → Option Notebook) :
    parseArgs [p, d] = some ⟨p, d, false⟩ ∧
    parseArgs [p, d, "--update"] = some ⟨p, d, true⟩ ∧
    runSgen ⟨p, d, false⟩ mods fs
      = mods.flatMap (fun m =>
          [Event.readSymbolTable m.name,
           Event.writeNotebook (nbPathFor d m.name) (skeletonNb m)]) ∧
    runSgen ⟨p, d, true⟩ mods fs
      = mods.flatMap (fun m => processModule d true fs m) := by
  refine ⟨rfl, rfl, ?_, ?_⟩
  · induction mods with
    | nil => rfl
    | cons m ms ih => simp [runSgen, processModule, ih]
  · induction mods with
    | nil => rfl
    | cons m ms ih => simp [runSgen, ih]

/-- C3: `update_module_page` keeps every existing cell unchanged, in
place, and appends at the end exactly one templated cell for each module
symbol not documented before (the set difference between the module's
symbols and the notebook's documented symbols, in symbol-table order). -/
theorem update_module_page_diff (syms : List String) (nb : Notebook) :
    (update_module_page syms nb).cells.take nb.cells.length = nb.cells ∧
    (update_module_page syms nb).cells.drop nb.cells.length
      = (syms.filter (fun s => !(documentedSyms nb).contains s)).map templateCell ∧
    documentedSyms (update_module_page syms nb)
      = documentedSyms nb ++ syms.filter (fun s => !(documentedSyms nb).contains s) := by
  refine ⟨?_, ?_, ?_⟩
  · simp [update_module_page]
  · simp [update_module_page]
  · show documentedSyms
        ⟨nb.cells ++
          (syms.filter (fun s => !(documentedSyms nb).contains s)).map templateCell⟩
      = documentedSyms nb ++ syms.filter (fun s => !(documentedSyms nb).contains s)
    rw [documentedSyms_append, documentedSyms_templateCells]

/-- C4: every symbol documented by the `text.models` notebook carries a
source link into the external `fastai` package, the AWD-LSTM symbols the
claim names are all among them, and no code cell of that notebook defines
a Python function or class, so the model is referenced and rendered, not
implemented, in this repository. -/
theorem awd_lstm_external :
    (textModelsSymbolSources.all (fun e => strHasPre fastaiSourceRoot e.2)) = true ∧
    (awdLstmSymbols.all
      (fun s => (textModelsSymbolSources.map Prod.fst).contains s)) = true ∧
    (textModelsCodeCells.all (fun c => !(cellHasPythonDef c))) = true :=
  ⟨by decide, by decide, by decide⟩

/-- C5: for every input, the language model and the RNN classifier each
return a list of exactly three elements: the actual output first, then
the intermediate hidden states before dropout, then the same states after
dropout. -/
theorem model_returns_three_parts (core : RNNCoreModel) (decoder : Tensor → Tensor)
    (head : List Tensor → Tensor) (x : Tensor) :
    (get_language_model core decoder x).length = 3 ∧
    (get_rnn_classifier core head x).length = 3 ∧
    get_language_model core decoder x
      = [LMOutputPart.result
           (decoder (lastOr x ((layerOutputs core.layers x).map core.hiddenDropout))),
         LMOutputPart.hiddenStates (layerOutputs core.layers x),
         LMOutputPart.hiddenStates ((layerOutputs core.layers x).map core.hiddenDropout)] ∧
    get_rnn_classifier core head x
      = [LMOutputPart.result (head ((layerOutputs core.layers x).map core.hiddenDropout)),
         LMOutputPart.hiddenStates (layerOutputs core.layers x),
         LMOutputPart.hiddenStates ((layerOutputs core.layers x).map core.hiddenDropout)] :=
  ⟨rfl, rfl, rfl, rfl⟩

/-- C6: in training mode `RNNDropout` multiplies every sequence step by
the one mask drawn for the trailing dimensions, so where the mask is zero
every step is zeroed, and (on coordinates where the input itself is
nonzero) a coordinate is zero at one sequence step if and only if it is
zero at every other step. -/
theorem rnnDropout_consistent_along_sequence (keep : ℕ → Bool) (p : ℚ)
    (x : ℕ → ℕ → ℚ) (i i' j : ℕ) (hi : x i j ≠ 0) (hi' : x i' j ≠ 0) :
    (rnnDropout keep p true x i j = 0 ↔ dropout_mask keep p j = 0) ∧
    (rnnDropout keep p true x i j = 0 ↔ rnnDropout keep p true x i' j = 0) ∧
    (dropout_mask keep p j = 0 → ∀ i₀, rnnDropout keep p true x i₀ j = 0) := by
  refine ⟨?_, ?_, ?_⟩
  · simp [rnnDropout, mul_eq_zero, hi]
  · simp [rnnDropout, mul_eq_zero, hi, hi']
  · intro h i₀
    simp [rnnDropout, h]

/-- Witness for C6 at a concrete input. -/
theorem rnnDropout_consistent_along_sequence_witness :
    ((fun (_ : ℕ) (_ : ℕ) => (1 : ℚ)) 0 0 ≠ 0) ∧
    (rnnDropout (fun _ => false) (1/2) true (fun _ _ => (1 : ℚ)) 0 0 = 0 ↔
      rnnDropout (fun _ => false) (1/2) true (fun _ _ => (1 : ℚ)) 1 0 = 0) :=
  ⟨by norm_num,
    (rnnDropout_consistent_along_sequence (fun _ => false) (1/2)
      (fun _ _ => (1 : ℚ)) 0 1 0 (by norm_num) (by norm_num)).2.1⟩

/-- C7: for `0 ≤ p < 1` every entry of the mask of `dropout_mask` is
either `0` or exactly `1/(1-p)`; `EmbeddingDropout` zeroes a dropped
embedding row and rescales a surviving row by `1/(1-p)`; and for
`p = 3/10` a surviving mask entry is `10/7` (≈ 1.4286). -/
theorem dropout_mask_values (keep : ℕ → Bool) (p : ℚ) (j : ℕ)
    (hp0 : 0 ≤ p) (hp1 : p < 1) :
    (dropout_mask keep p j = 0 ∨ dropout_mask keep p j = 1 / (1 - p)) ∧
    (∀ (w : ℕ → ℕ → ℚ) (r c : ℕ), keep r = false →
        embeddingDropout keep p true w r c = 0) ∧
    (∀ (w : ℕ → ℕ → ℚ) (r c : ℕ), keep r = true →
        embeddingDropout keep p true w r c = w r c / (1 - p)) ∧
    (keep j = true → dropout_mask keep (3/10) j = 10 / 7) := by
  refine ⟨?_, ?_, ?_, ?_⟩
  · by_cases hk : keep j
    · right
      simp [dropout_mask, hk]
    · left
      simp [dropout_mask, hk]
  · intro w r c hr
    simp [embeddingDropout, dropout_mask, hr]
  · intro w r c hr
    simp [embeddingDropout, dropout_mask, hr]
    rw [div_eq_mul_inv, mul_comm]
  · intro hk
    simp [dropout_mask, hk]
    norm_num

/-- Witness for C7 at a concrete input. -/
theorem dropout_mask_values_witness :
    (0 ≤ (3/10 : ℚ)) ∧ ((3/10 : ℚ) < 1) ∧
    (dropout_mask (fun _ => true) (3/10) 0 = 0 ∨
      dropout_mask (fun _ => true) (3/10) 0 = 1 / (1 - 3/10)) :=
  ⟨by norm_num, by norm_num,
    (dropout_mask_values (fun _ => true) (3/10) 0 (by norm_num) (by norm_num)).1⟩

/-- C8: `update_notebooks` with `update_html = true` converts each source
notebook — whether `source_path` is a directory or a single file — into
one rendered HTML page placed at `html_path`. -/
theorem update_notebooks_converts (conv : String → String) (hp : String)
    (nbs : List String) (nb : String) (sp : SourcePath) :
    update_notebooks conv sp true hp
      = (sourceNbs sp).map (fun n => Event.writeHtml (htmlPathFor hp n) (conv n)) ∧
    (update_notebooks conv sp true hp).length = (sourceNbs sp).length ∧
    update_notebooks conv (SourcePath.dir nbs) true hp
      = nbs.map (fun n => Event.writeHtml (htmlPathFor hp n) (conv n)) ∧
    update_notebooks conv (SourcePath.file nb) true hp
      = [Event.writeHtml (htmlPathFor hp nb) (conv nb)] :=
  ⟨rfl, by simp [update_notebooks], rfl, rfl⟩

/-- C9: the repository has exactly four files, each of which is either a
Jupyter documentation notebook in nbformat 4 none of whose code cells
defines a Python function or class, or a generated HTML documentation
page. -/
theorem repo_files_documentation_only :
    repoFiles.length = 4 ∧ (repoFiles.all fileIsDocOnly) = true :=
  ⟨rfl, by decide⟩

/-- C10: every modelled execution of the repository's tooling — a
`sgen_notebooks` generation/update run and the notebook-to-HTML
conversion — is a single-shot batch trace that never contains a
thread-spawn effect. -/
theorem batch_single_shot_no_threads (a : Args) (mods : List Module)
    (fs : String → Option Notebook) (conv : String → String)
    (sp : SourcePath) (uh : Bool) (hp : String) :
    Event.spawnThread ∉ runSgen a mods fs ∧
    Event.spawnThread ∉ update_notebooks conv sp uh hp := by
  constructor
  · induction mods with
    | nil => simp [runSgen]
    | cons m ms ih =>
      simp only [runSgen, List.mem_append]
      rintro (h | h)
      · exact spawnThread_not_mem_processModule a.dest a.update fs m h
      · exact ih h
  · cases uh
    · simp [update_notebooks]
    · cases sp <;> simp [update_notebooks, sourceNbs]

end FastaiDocs
